import Mathlib

/-!
# Verification of the IDLE extension of `rust-imap` (`src/extensions/idle.rs`)

We shallowly embed the `Handle` state machine of the IDLE extension.  The
`Session` collaborator and the transport are external to the file under
verification: the handle only observes the *results* of the line-oriented
primitives it invokes (`run_command`, `readline`, `read_response_onto`,
`read_response`, `write_line`, flush) and of the deadline primitives
(`read_timeout`, `set_read_timeout`).  We therefore model an execution as a
function of the handle state, the transport's deadline state, and an
*environment* record that supplies the result of each primitive call site
(each site is invoked at most once per top-level operation).  Every embedded
operation also returns the trace of session/transport operations it issued,
in order, so that claims about "what was sent" and "what deadline was
installed" are statements about the trace and the final transport state.
-/

/-- Rust `std::time::Duration`, abstracted to a number of seconds.  The only
concrete durations in the source are whole seconds (`Duration::from_secs(60)`
and `Duration::from_secs(29 * 60)`); all other durations are passed through
opaquely. -/
abbrev Duration := Nat

/-- The `std::io::ErrorKind` of an I/O error, as far as the IDLE code
inspects it: the guard in `wait_inner` / `wait_inner_keepalive` tests for
`TimedOut` and `WouldBlock`; every other kind is collapsed into
`otherKind`. -/
inductive IOErrorKind where
  | timedOut
  | wouldBlock
  | otherKind
  deriving DecidableEq, Repr

/-- The crate's `Error` type, as far as the IDLE code inspects it:
`Error::Io(e)` carries an I/O error kind, and every non-`Io` variant
(`Error::Bad`, `Error::No`, parse errors, ...) is collapsed into
`otherError`, since the IDLE code only ever passes those through. -/
inductive Error where
  | ioError (k : IOErrorKind)
  | otherError
  deriving DecidableEq, Repr

/-- The guard of the timeout arm in `wait_inner` and `wait_inner_keepalive`:
`Err(Error::Io(ref e)) if e.kind() == io::ErrorKind::TimedOut || e.kind() ==
io::ErrorKind::WouldBlock`. -/
def isTimeoutOrWouldBlock : Error → Bool
  | .ioError .timedOut => true
  | .ioError .wouldBlock => true
  | _ => false

/-- One session/transport operation issued by the handle, as recorded in an
execution trace.  `set_read_timeout` records the deadline argument it was
called with; `write_line` records the line written. -/
inductive Op where
  | run_command (cmd : String)
  | readline
  | read_response_onto
  | read_response
  | write_line (line : String)
  | flush
  | read_timeout
  | set_read_timeout (t : Option Duration)
  deriving DecidableEq, Repr

/-- The fields of `Handle` other than the borrowed session: `keepalive`,
`done` and `old_timeout` (`src/extensions/idle.rs`, lines 28-33). -/
structure HandleState where
  keepalive : Duration
  done : Bool
  old_timeout : Option Duration
  deriving DecidableEq, Repr

/-- The transport state the IDLE code manipulates: the currently configured
read deadline (cf. the `SetReadTimeout` trait). -/
structure Transport where
  readTimeout : Option Duration
  deriving DecidableEq, Repr

/-- Environment for one invocation of `terminate`: the results of the
`write_line`, `flush` and `read_response` call sites.  (`read_response`'s
value is discarded by `.map(|_| ())` in the source, so only success/failure
is modelled.) -/
structure TermEnv where
  write_lineR : Except Error Unit
  flushR : Except Error Unit
  read_responseR : Except Error Unit
  deriving Repr

/-- All-success termination environment, used to build concrete runs. -/
def TermEnv.allOk : TermEnv :=
  { write_lineR := .ok (), flushR := .ok (), read_responseR := .ok () }

/-- `Handle::terminate` (lines 86-95): if `done` is not yet set, set it
*immediately*, then write the literal line `DONE`, flush, and read one full
tagged response; the first failing step aborts the sequence and its error is
returned.  If `done` is already set, do nothing and succeed. -/
def terminate (h : HandleState) (env : TermEnv) :
    HandleState × List Op × Except Error Unit :=
  if !h.done then
    let h := { h with done := true }
    match env.write_lineR with
    | .error e => (h, [Op.write_line "DONE"], .error e)
    | .ok () =>
      match env.flushR with
      | .error e => (h, [Op.write_line "DONE", Op.flush], .error e)
      | .ok () =>
        match env.read_responseR with
        | .error e =>
            (h, [Op.write_line "DONE", Op.flush, Op.read_response], .error e)
        | .ok () =>
            (h, [Op.write_line "DONE", Op.flush, Op.read_response], .ok ())
  else
    (h, [], .ok ())

/-- `Drop for Handle` (lines 196-201): run `terminate` and discard its
result (`let _ = self.terminate().is_ok();`) — any cleanup error is
swallowed; only the state change and the issued operations remain. -/
def drop_handle (h : HandleState) (env : TermEnv) : HandleState × List Op :=
  let (h', tr, _) := terminate h env
  (h', tr)

/-- Outcome of `Handle::init`: success, a returned (recoverable) error, or
the `unreachable!()` macro firing, which aborts via a panic rather than
returning to the caller. -/
inductive InitOutcome where
  | ok
  | err (e : Error)
  | panicked
  deriving DecidableEq, Repr

/-- Environment for one invocation of `init`: the results of the
`run_command("IDLE")`, `readline` and `read_response_onto` call sites.  A
successful `readline` yields the raw line read. -/
structure InitEnv where
  run_commandR : Except Error Unit
  readlineR : Except Error String
  read_response_ontoR : Except Error Unit
  deriving Repr

/-- `v.starts_with(b"+")` from `init`: the buffer's first byte is `+`
(`+` is a one-byte prefix, so this is exactly a first-character test). -/
def startsWithPlus (v : String) : Bool :=
  match v.data with
  | [] => false
  | c :: _ => c == '+'

/-- `Handle::init` (lines 64-84): send `IDLE`, read one raw line; if it
starts with `+`, clear `done` and succeed.  Otherwise read one full tagged
response (propagating its error if it fails), and if that read *succeeds*
hit `unreachable!()` — a panic. -/
def init (h : HandleState) (env : InitEnv) :
    HandleState × List Op × InitOutcome :=
  match env.run_commandR with
  | .error e => (h, [Op.run_command "IDLE"], .err e)
  | .ok () =>
    match env.readlineR with
    | .error e => (h, [Op.run_command "IDLE", Op.readline], .err e)
    | .ok v =>
      if startsWithPlus v then
        ({ h with done := false },
          [Op.run_command "IDLE", Op.readline], .ok)
      else
        match env.read_response_ontoR with
        | .error e =>
            (h, [Op.run_command "IDLE", Op.readline, Op.read_response_onto],
              .err e)
        | .ok () =>
            (h, [Op.run_command "IDLE", Op.readline, Op.read_response_onto],
              .panicked)

/-- Outcome of `Handle::make`: a constructed handle state, a returned
error, or a panic from `init`'s `unreachable!()`. -/
inductive MakeOutcome where
  | ok (h : HandleState)
  | err (e : Error)
  | panicked
  deriving DecidableEq, Repr

/-- Environment for `Handle::make`: the `init` call sites, plus the
termination call sites used by `Drop` in case `init` fails (the local
handle is dropped when `h.init()?` propagates an error). -/
structure MakeEnv where
  initEnv : InitEnv
  dropTerm : TermEnv
  deriving Repr

/-- `Handle::make` (lines 53-62): build the initial state (`keepalive` = 29
minutes, `done = false`, `old_timeout = None`), run `init`; on `init`
error the local handle is dropped, which runs `Drop` (and hence
`terminate`) before the error is returned.  A panic in `init` aborts
(unwinding behaviour past the abort is not modelled). -/
def make (env : MakeEnv) : List Op × MakeOutcome :=
  let h : HandleState := { keepalive := 29 * 60, done := false, old_timeout := none }
  let (h1, tr, r) := init h env.initEnv
  match r with
  | .ok => (tr, .ok h1)
  | .err e =>
      let (_, tr2) := drop_handle h1 env.dropTerm
      (tr ++ tr2, .err e)
  | .panicked => (tr, .panicked)

/-- Environment for one invocation of `wait_inner`: the `readline` call
site, plus the termination call sites used on the timeout path. -/
structure WaitInnerEnv where
  readlineR : Except Error String
  term : TermEnv
  deriving Repr

/-- `Handle::wait_inner` (lines 103-118): one raw line read.  A timeout /
would-block I/O error triggers `terminate` and yields `Ok(false)` (or the
termination error); any other error is returned; a successful read yields
`Ok(true)`. -/
def wait_inner (h : HandleState) (env : WaitInnerEnv) :
    HandleState × List Op × Except Error Bool :=
  match env.readlineR with
  | .error e =>
    if isTimeoutOrWouldBlock e then
      let (h1, tr1, r1) := terminate h env.term
      match r1 with
      | .error e2 => (h1, Op.readline :: tr1, .error e2)
      | .ok () => (h1, Op.readline :: tr1, .ok false)
    else
      (h, [Op.readline], .error e)
  | .ok _ => (h, [Op.readline], .ok true)

/-- Environment for `Handle::wait`: the `wait_inner` call sites plus the
termination call sites used by `Drop` when the consumed handle goes out of
scope at the end of `wait`. -/
structure WaitEnv where
  inner : WaitInnerEnv
  dropTerm : TermEnv
  deriving Repr

/-- `Handle::wait` (lines 121-123): runs `wait_inner`, then the consumed
handle (`mut self`) is dropped, running `Drop`'s best-effort
termination. -/
def wait (h : HandleState) (env : WaitEnv) :
    HandleState × List Op × Except Error Bool :=
  let (h1, tr1, r) := wait_inner h env.inner
  let (h2, tr2) := drop_handle h1 env.dropTerm
  (h2, tr1 ++ tr2, r)

/-- Result of a transport `set_read_timeout` call: on success the deadline
is installed; on an environment-chosen failure the deadline is left
unchanged and the error is returned. -/
def set_read_timeout (t : Option Duration) (r : Option Error)
    (tp : Transport) : Transport × Except Error Unit :=
  match r with
  | none => ({ readTimeout := t }, .ok ())
  | some e => (tp, .error e)

/-- `Handle::restore_timeout` (lines 188-193):
`set_read_timeout(self.old_timeout.take())` — the saved deadline is taken
out of the handle (leaving `None`) and installed on the transport. -/
def restore_timeout (h : HandleState) (tp : Transport) (r : Option Error) :
    HandleState × Transport × List Op × Except Error Unit :=
  let t := h.old_timeout
  let h' := { h with old_timeout := none }
  let (tp', res) := set_read_timeout t r tp
  (h', tp', [Op.set_read_timeout t], res)

/-- Environment for one invocation of `wait_inner_keepalive`: the
`readline` call site, the second `set_read_timeout` call site (the
60-second drain install on the timeout path, or the restore on every other
path — the two are mutually exclusive), and the termination call sites. -/
structure KeepEnv where
  readlineR : Except Error String
  set2R : Option Error
  term : TermEnv
  deriving Repr

/-- `Handle::wait_inner_keepalive` (lines 164-186): one raw line read.  On
a timeout / would-block I/O error: install a fixed 60-second deadline,
`terminate`, and yield `Ok(false)` (the first failing step's error is
returned instead).  On *every other* outcome — a successful read or any
other error — the catch-all arm runs `restore_timeout()?` and then returns
the original outcome (so a failing restore shadows it). -/
def wait_inner_keepalive (h : HandleState) (tp : Transport) (env : KeepEnv) :
    HandleState × Transport × List Op × Except Error Bool :=
  match env.readlineR with
  | .error e =>
    if isTimeoutOrWouldBlock e then
      let (tp1, rs) := set_read_timeout (some 60) env.set2R tp
      match rs with
      | .error e2 =>
          (h, tp1, [Op.readline, Op.set_read_timeout (some 60)], .error e2)
      | .ok () =>
        let (h1, tr1, rt) := terminate h env.term
        match rt with
        | .error e3 =>
            (h1, tp1,
              [Op.readline, Op.set_read_timeout (some 60)] ++ tr1, .error e3)
        | .ok () =>
            (h1, tp1,
              [Op.readline, Op.set_read_timeout (some 60)] ++ tr1, .ok false)
    else
      let (h1, tp1, tr1, rr) := restore_timeout h tp env.set2R
      match rr with
      | .error e2 => (h1, tp1, Op.readline :: tr1, .error e2)
      | .ok () => (h1, tp1, Op.readline :: tr1, .error e)
  | .ok _ =>
      let (h1, tp1, tr1, rr) := restore_timeout h tp env.set2R
      match rr with
      | .error e2 => (h1, tp1, Op.readline :: tr1, .error e2)
      | .ok () => (h1, tp1, Op.readline :: tr1, .ok true)

/-- Environment for `Handle::wait_timeout`: the `read_timeout` getter call
site (`none` = success, returning the transport's current deadline), the
first `set_read_timeout` call site (installing the argument deadline), the
`wait_inner_keepalive` call sites, and the termination call sites used by
`Drop` when the consumed handle goes out of scope. -/
structure TimeoutEnv where
  getR : Option Error
  setInstallR : Option Error
  keep : KeepEnv
  dropTerm : TermEnv
  deriving Repr

/-- `Handle::wait_timeout` (lines 155-162): save the transport's current
deadline into `old_timeout` (propagating a getter failure), install the
argument as the new deadline (propagating a setter failure), then run
`wait_inner_keepalive`.  On every exit the consumed handle (`mut self`) is
dropped, running `Drop`'s best-effort termination. -/
def wait_timeout (h : HandleState) (tp : Transport) (d : Duration)
    (env : TimeoutEnv) :
    HandleState × Transport × List Op × Except Error Bool :=
  match env.getR with
  | some e =>
      let (h1, tr1) := drop_handle h env.dropTerm
      (h1, tp, Op.read_timeout :: tr1, .error e)
  | none =>
    let h := { h with old_timeout := tp.readTimeout }
    let (tp1, rs) := set_read_timeout (some d) env.setInstallR tp
    match rs with
    | .error e =>
        let (h1, tr1) := drop_handle h env.dropTerm
        (h1, tp1,
          [Op.read_timeout, Op.set_read_timeout (some d)] ++ tr1, .error e)
    | .ok () =>
        let (h1, tp2, tr2, r) := wait_inner_keepalive h tp1 env.keep
        let (h2, tr3) := drop_handle h1 env.dropTerm
        (h2, tp2,
          [Op.read_timeout, Op.set_read_timeout (some d)] ++ tr2 ++ tr3, r)

/-- `Handle::wait_keepalive` (lines 142-152): read the configured
`keepalive` duration out of the handle, then run `wait_timeout` with it. -/
def wait_keepalive (h : HandleState) (tp : Transport) (env : TimeoutEnv) :
    HandleState × Transport × List Op × Except Error Bool :=
  let keepalive := h.keepalive
  wait_timeout h tp keepalive env

/-- A fresh handle state as `Handle::make` builds it, before `init` runs. -/
def freshHandle : HandleState :=
  { keepalive := 29 * 60, done := false, old_timeout := none }

/-!
## Basic lemmas
-/

/-- After any `terminate` call, `done` is true: either it was already, or
`terminate` set it before its first fallible step. -/
theorem terminate_done (h : HandleState) (env : TermEnv) :
    (terminate h env).1.done = true := by
  obtain ⟨k, d, o⟩ := h
  obtain ⟨w, f, r⟩ := env
  cases d <;> cases w <;> cases f <;> cases r <;> rfl

/-- A handle state produced by a successful `make` has `done = false`. -/
theorem make_ok_done_false (menv : MakeEnv) (tr : List Op) (h : HandleState)
    (hmk : make menv = (tr, .ok h)) : h.done = false := by
  obtain ⟨⟨rc, rl, rro⟩, dt⟩ := menv
  cases rc with
  | error e => simp [make, init] at hmk
  | ok u =>
    cases rl with
    | error e => simp [make, init] at hmk
    | ok v =>
      by_cases hp : startsWithPlus v
      · simp [make, init, hp] at hmk
        obtain ⟨-, hh⟩ := hmk
        rw [← hh]
      · cases rro with
        | error e => simp [make, init, hp, drop_handle] at hmk
        | ok u2 => simp [make, init, hp] at hmk

/-- `drop_handle` on a not-yet-terminated handle issues exactly one
`DONE` write, whatever the environment answers. -/
theorem drop_handle_one_done (h : HandleState) (env : TermEnv)
    (hd : h.done = false) :
    List.count (Op.write_line "DONE") (drop_handle h env).2 = 1 := by
  obtain ⟨k, d, o⟩ := h
  obtain ⟨w, f, r⟩ := env
  cases d with
  | true => simp at hd
  | false => cases w <;> cases f <;> cases r <;> rfl

/-!
## The claims
-/

/-- C1 (code bug): the claim says every non-`+` first line makes
construction fail with a *recoverable error returned to the caller*, never
aborting the process.  But when the first line does not start with `+` and
the subsequent `read_response_onto` *succeeds* (e.g. a hostile or buggy
server answers the `IDLE` command with an untagged line followed by a
tagged `OK`), `init` reaches `unreachable!()` and panics — a process-level
abort, not a returned error.  This theorem evaluates `init` at that
failing input. -/
theorem C1_init_panics_on_nonplus_line_with_ok_response :
    init freshHandle
      { run_commandR := .ok (), readlineR := .ok "* 1 EXISTS",
        read_response_ontoR := .ok () } =
      (freshHandle, [Op.run_command "IDLE", Op.readline, Op.read_response_onto],
        .panicked) := by decide

/-- C2 (confirmed): when the bounded read inside `wait_timeout d` fails
with a timeout/would-block error (and the drain install and termination
steps themselves succeed), the call returns `false`; the full operation
trace is exactly: save the deadline, install `d`, the failed read, install
the fixed 60-second drain deadline, then the single termination sequence
(`DONE`, flush, read response) — so exactly one `DONE` is sent, the
60-second deadline is installed before termination, and no restore of the
saved deadline ever occurs (the final transport deadline is the 60-second
drain value). -/
theorem C2_wait_timeout_timeout_path (h : HandleState) (tp : Transport)
    (d : Duration) (env : TimeoutEnv) (e : Error)
    (hget : env.getR = none) (hset : env.setInstallR = none)
    (hrl : env.keep.readlineR = .error e)
    (hto : isTimeoutOrWouldBlock e = true)
    (hs2 : env.keep.set2R = none)
    (hdone : h.done = false)
    (hw : env.keep.term.write_lineR = .ok ())
    (hf : env.keep.term.flushR = .ok ())
    (hr : env.keep.term.read_responseR = .ok ()) :
    wait_timeout h tp d env =
      ({ h with done := true, old_timeout := tp.readTimeout },
        { readTimeout := some 60 },
        [Op.read_timeout, Op.set_read_timeout (some d), Op.readline,
          Op.set_read_timeout (some 60), Op.write_line "DONE", Op.flush,
          Op.read_response],
        .ok false) := by
  obtain ⟨g, si, ⟨krl, ks2, ⟨kw, kf, kr⟩⟩, dt⟩ := env
  simp only at hget hset hrl hs2 hw hf hr
  subst hget hset hrl hs2 hw hf hr
  simp [wait_timeout, wait_inner_keepalive, set_read_timeout, terminate,
    drop_handle, hto, hdone]

/-- C2 witness. -/
theorem C2_witness :
    wait_timeout freshHandle { readTimeout := some 5 } 2
      { getR := none, setInstallR := none,
        keep := { readlineR := .error (.ioError .timedOut), set2R := none,
                  term := TermEnv.allOk },
        dropTerm := TermEnv.allOk } =
      ({ freshHandle with done := true, old_timeout := some 5 },
        { readTimeout := some 60 },
        [Op.read_timeout, Op.set_read_timeout (some 2), Op.readline,
          Op.set_read_timeout (some 60), Op.write_line "DONE", Op.flush,
          Op.read_response],
        .ok false) :=
  C2_wait_timeout_timeout_path freshHandle { readTimeout := some 5 } 2 _
    (.ioError .timedOut) rfl rfl rfl rfl rfl rfl rfl rfl rfl

/-- C3 (confirmed): when the bounded read inside `wait_timeout d` succeeds
(and the deadline save, install and restore steps succeed), the call
returns `true` and the transport's read deadline after the call equals the
deadline in effect immediately before the call — the saved deadline is
restored. -/
theorem C3_wait_timeout_line_arrives (h : HandleState) (tp : Transport)
    (d : Duration) (env : TimeoutEnv) (s : String)
    (hget : env.getR = none) (hset : env.setInstallR = none)
    (hrl : env.keep.readlineR = .ok s)
    (hs2 : env.keep.set2R = none) :
    (wait_timeout h tp d env).2.2.2 = .ok true ∧
    (wait_timeout h tp d env).2.1.readTimeout = tp.readTimeout := by
  obtain ⟨g, si, ⟨krl, ks2, kt⟩, dt⟩ := env
  simp only at hget hset hrl hs2
  subst hget hset hrl hs2
  simp [wait_timeout, wait_inner_keepalive, restore_timeout,
    set_read_timeout, drop_handle]

/-- C3 witness. -/
theorem C3_witness :
    (wait_timeout freshHandle { readTimeout := some 7 } 3
      { getR := none, setInstallR := none,
        keep := { readlineR := .ok "* 1 EXISTS", set2R := none,
                  term := TermEnv.allOk },
        dropTerm := TermEnv.allOk }).2.2.2 = .ok true ∧
    (wait_timeout freshHandle { readTimeout := some 7 } 3
      { getR := none, setInstallR := none,
        keep := { readlineR := .ok "* 1 EXISTS", set2R := none,
                  term := TermEnv.allOk },
        dropTerm := TermEnv.allOk }).2.1.readTimeout = some 7 :=
  C3_wait_timeout_line_arrives freshHandle { readTimeout := some 7 } 3 _
    "* 1 EXISTS" rfl rfl rfl rfl

/-- C4 (counterexample): the claim says `wait` gives *every* read error —
"with no special treatment of timeout/would-block errors" — to the caller
as a hard failure.  But `wait_inner` explicitly matches timeout /
would-block I/O errors, terminates, and returns `Ok(false)`: here a
`TimedOut` read error makes `wait` return `.ok false`, not an error. -/
theorem C4_counterexample :
    (wait freshHandle
      { inner := { readlineR := .error (.ioError .timedOut),
                   term := TermEnv.allOk },
        dropTerm := TermEnv.allOk }).2.2 = .ok false := rfl

/-- C4 (amended): in `wait`, a successful raw line read yields `true`; a
read error *other than* timeout/would-block propagates to the caller as a
hard failure; a timeout/would-block read error is special-cased — it
triggers termination and yields `false` (or the termination failure). -/
theorem C4_wait_amended (h : HandleState) (env : WaitEnv) :
    (∀ s, env.inner.readlineR = .ok s → (wait h env).2.2 = .ok true) ∧
    (∀ e, env.inner.readlineR = .error e → isTimeoutOrWouldBlock e = false →
      (wait h env).2.2 = .error e) ∧
    (∀ e, env.inner.readlineR = .error e → isTimeoutOrWouldBlock e = true →
      (wait h env).2.2 =
        Except.map (fun _ => false) (terminate h env.inner.term).2.2) := by
  obtain ⟨⟨rl, tm⟩, dt⟩ := env
  refine ⟨?_, ?_, ?_⟩
  · intro s hs
    simp only at hs; subst hs
    simp [wait, wait_inner, drop_handle]
  · intro e he hto
    simp only at he; subst he
    simp [wait, wait_inner, drop_handle, hto]
  · intro e he hto
    simp only at he; subst he
    rcases hterm : terminate h tm with ⟨h1, tr1, r1⟩
    simp [wait, wait_inner, drop_handle, hto, hterm]
    cases r1 <;> rfl

/-- C4 witness. -/
theorem C4_witness :
    (wait freshHandle
      { inner := { readlineR := .error .otherError, term := TermEnv.allOk },
        dropTerm := TermEnv.allOk }).2.2 = .error .otherError :=
  (C4_wait_amended freshHandle
    { inner := { readlineR := .error .otherError, term := TermEnv.allOk },
      dropTerm := TermEnv.allOk }).2.1 .otherError rfl rfl

/-- C5 (counterexample): the claim says that when the bounded read fails
with a non-timeout error, "no read deadline is installed or restored by
the call".  But the catch-all arm of `wait_inner_keepalive` runs
`restore_timeout()?` on that path: here the saved deadline `some 5` *is*
restored (the trace contains `set_read_timeout (some 5)` and the final
transport deadline is `some 5`) before the error is returned. -/
theorem C5_counterexample :
    wait_inner_keepalive
      { keepalive := 29 * 60, done := false, old_timeout := some 5 }
      { readTimeout := some 2 }
      { readlineR := .error .otherError, set2R := none,
        term := TermEnv.allOk } =
    ({ keepalive := 29 * 60, done := false, old_timeout := none },
      { readTimeout := some 5 },
      [Op.readline, Op.set_read_timeout (some 5)], .error .otherError) := rfl

/-- C5 (amended): when the bounded read inside `wait_timeout d` fails with
an error other than timeout/would-block, no termination is performed and
no 60-second drain deadline is installed within the call itself (its own
trace is exactly the read followed by one restoring `set_read_timeout`),
but the saved read deadline *is* restored before the error propagates; if
that restore succeeds the read error is returned and the transport's
deadline equals the pre-call deadline, and if the restore itself fails its
error is returned instead of the read error. -/
theorem C5_other_error_amended (h : HandleState) (tp : Transport)
    (d : Duration) (env : TimeoutEnv) (e : Error)
    (hget : env.getR = none) (hset : env.setInstallR = none)
    (hrl : env.keep.readlineR = .error e)
    (hto : isTimeoutOrWouldBlock e = false) :
    (env.keep.set2R = none →
      (wait_timeout h tp d env).2.2.2 = .error e ∧
      (wait_timeout h tp d env).2.1.readTimeout = tp.readTimeout) ∧
    (∀ e2, env.keep.set2R = some e2 →
      (wait_timeout h tp d env).2.2.2 = .error e2) ∧
    (wait_inner_keepalive { h with old_timeout := tp.readTimeout }
        { readTimeout := some d } env.keep).2.2.1 =
      [Op.readline, Op.set_read_timeout tp.readTimeout] := by
  obtain ⟨g, si, ⟨krl, ks2, kt⟩, dt⟩ := env
  simp only at hget hset hrl; subst hget hset hrl
  refine ⟨?_, ?_, ?_⟩
  · intro hs2
    simp only at hs2; subst hs2
    simp [wait_timeout, wait_inner_keepalive, restore_timeout,
      set_read_timeout, drop_handle, hto]
  · intro e2 hs2
    simp only at hs2; subst hs2
    simp [wait_timeout, wait_inner_keepalive, restore_timeout,
      set_read_timeout, drop_handle, hto]
  · cases ks2 <;>
      simp [wait_inner_keepalive, restore_timeout, set_read_timeout, hto]

/-- C5 witness. -/
theorem C5_witness :
    (wait_timeout freshHandle { readTimeout := some 5 } 2
      { getR := none, setInstallR := none,
        keep := { readlineR := .error .otherError, set2R := none,
                  term := TermEnv.allOk },
        dropTerm := TermEnv.allOk }).2.2.2 = .error .otherError ∧
    (wait_timeout freshHandle { readTimeout := some 5 } 2
      { getR := none, setInstallR := none,
        keep := { readlineR := .error .otherError, set2R := none,
                  term := TermEnv.allOk },
        dropTerm := TermEnv.allOk }).2.1.readTimeout = some 5 :=
  (C5_other_error_amended freshHandle { readTimeout := some 5 } 2
    { getR := none, setInstallR := none,
      keep := { readlineR := .error .otherError, set2R := none,
                term := TermEnv.allOk },
      dropTerm := TermEnv.allOk } .otherError rfl rfl rfl rfl).1 rfl

/-- C6 (counterexample): the claim says a non-continuation handshake line
means construction fails with *no further reads or writes* on the Session
and with `DONE` never sent.  But `init` performs one further read
(`read_response_onto`) after the non-`+` line, and when `init` then
returns an error the local handle is dropped inside `make`, whose `Drop`
runs `terminate`: the trace of this failing construction contains a
`DONE` write, a flush and a response read. -/
theorem C6_counterexample :
    make { initEnv := { run_commandR := .ok (),
                        readlineR := .ok "a1 BAD IDLE not supported",
                        read_response_ontoR := .error .otherError },
           dropTerm := TermEnv.allOk } =
    ([Op.run_command "IDLE", Op.readline, Op.read_response_onto,
      Op.write_line "DONE", Op.flush, Op.read_response],
      .err .otherError) := by decide

/-- C6 (amended): for every entry handshake whose first raw line does not
begin with `+` and whose subsequent tagged-response read fails (the
`BAD`/`NO` case), construction fails with that error — but only after one
further read of a full tagged response, and the drop of the partially
constructed handle attempts termination, so exactly one `DONE` line is
sent on that connection. -/
theorem C6_nonplus_handshake_amended (env : MakeEnv) (line : String)
    (e : Error)
    (h1 : env.initEnv.run_commandR = .ok ())
    (h2 : env.initEnv.readlineR = .ok line)
    (h3 : startsWithPlus line = false)
    (h4 : env.initEnv.read_response_ontoR = .error e) :
    (make env).2 = .err e ∧
    Op.read_response_onto ∈ (make env).1 ∧
    List.count (Op.write_line "DONE") (make env).1 = 1 := by
  obtain ⟨⟨rc, rl, rro⟩, ⟨w, f, r⟩⟩ := env
  simp only at h1 h2 h4; subst h1 h2 h4
  cases w <;> cases f <;> cases r <;>
    simp [make, init, drop_handle, terminate, h3]

/-- C6 witness. -/
theorem C6_witness :
    (make { initEnv := { run_commandR := .ok (),
                         readlineR := .ok "a1 BAD IDLE not supported",
                         read_response_ontoR := .error .otherError },
            dropTerm := TermEnv.allOk }).2 = .err .otherError ∧
    Op.read_response_onto ∈
      (make { initEnv := { run_commandR := .ok (),
                           readlineR := .ok "a1 BAD IDLE not supported",
                           read_response_ontoR := .error .otherError },
              dropTerm := TermEnv.allOk }).1 ∧
    List.count (Op.write_line "DONE")
      (make { initEnv := { run_commandR := .ok (),
                           readlineR := .ok "a1 BAD IDLE not supported",
                           read_response_ontoR := .error .otherError },
              dropTerm := TermEnv.allOk }).1 = 1 :=
  C6_nonplus_handshake_amended
    { initEnv := { run_commandR := .ok (),
                   readlineR := .ok "a1 BAD IDLE not supported",
                   read_response_ontoR := .error .otherError },
      dropTerm := TermEnv.allOk }
    "a1 BAD IDLE not supported" .otherError rfl rfl (by decide) rfl

/-- C7 (confirmed): termination is idempotent.  After any `terminate`
call, a second `terminate` leaves the state unchanged, issues no
session/transport operations, and succeeds — so calling `terminate` twice
in sequence is equivalent to calling it once; and on a handle whose `done`
flag is already set, `terminate` performs no I/O and succeeds
trivially. -/
theorem C7_terminate_idempotent (h : HandleState) (env env2 : TermEnv) :
    terminate (terminate h env).1 env2 = ((terminate h env).1, [], .ok ()) ∧
    (h.done = true → terminate h env2 = (h, [], .ok ())) := by
  constructor
  · rcases hterm : terminate h env with ⟨h1, tr1, r1⟩
    have hd := terminate_done h env
    rw [hterm] at hd
    simp only at hd
    simp [hterm, terminate, hd]
  · intro hdone
    simp [terminate, hdone]

/-- C7 witness. -/
theorem C7_witness :
    terminate (terminate freshHandle TermEnv.allOk).1 TermEnv.allOk =
      ((terminate freshHandle TermEnv.allOk).1, [], .ok ()) ∧
    terminate { freshHandle with done := true } TermEnv.allOk =
      ({ freshHandle with done := true }, [], .ok ()) :=
  ⟨(C7_terminate_idempotent freshHandle TermEnv.allOk TermEnv.allOk).1,
    (C7_terminate_idempotent { freshHandle with done := true }
      TermEnv.allOk TermEnv.allOk).2 rfl⟩

/-- C8 (confirmed): dropping a successfully constructed handle on which no
wait operation was called performs termination exactly once — its trace
contains exactly one `DONE` write, whatever the cleanup environment
answers (any error along the way is swallowed: `drop_handle` returns no
error, only the final state and trace) — and leaves the handle
terminated. -/
theorem C8_drop_after_make (menv : MakeEnv) (tr : List Op)
    (h : HandleState) (env : TermEnv)
    (hmk : make menv = (tr, .ok h)) :
    List.count (Op.write_line "DONE") (drop_handle h env).2 = 1 ∧
    (drop_handle h env).1.done = true := by
  have hd := make_ok_done_false menv tr h hmk
  refine ⟨drop_handle_one_done h env hd, ?_⟩
  show (terminate h env).1.done = true
  exact terminate_done h env

/-- C8 witness. -/
theorem C8_witness :
    List.count (Op.write_line "DONE")
      (drop_handle { keepalive := 29 * 60, done := false,
                     old_timeout := none } TermEnv.allOk).2 = 1 ∧
    (drop_handle { keepalive := 29 * 60, done := false,
                   old_timeout := none } TermEnv.allOk).1.done = true :=
  C8_drop_after_make
    { initEnv := { run_commandR := .ok (), readlineR := .ok "+ idling",
                   read_response_ontoR := .ok () },
      dropTerm := TermEnv.allOk }
    [Op.run_command "IDLE", Op.readline]
    { keepalive := 29 * 60, done := false, old_timeout := none }
    TermEnv.allOk (by decide)

/-- C9 (confirmed): `wait_keepalive` is exactly `wait_timeout` applied to
the configured keepalive duration — same final handle state, same final
transport state, same operation trace, same outcome, for every starting
state and every environment. -/
theorem C9_wait_keepalive_eq_wait_timeout (h : HandleState)
    (tp : Transport) (env : TimeoutEnv) :
    wait_keepalive h tp env = wait_timeout h tp h.keepalive env := rfl

/-- C10 (confirmed): when the bounded read inside `wait_timeout d`
succeeds but the subsequent restore of the saved deadline fails, the call
returns the restore error instead of `true` — even though a line was
consumed from the connection (the trace records the successful
`readline`). -/
theorem C10_restore_failure_shadows_true (h : HandleState) (tp : Transport)
    (d : Duration) (env : TimeoutEnv) (s : String) (e2 : Error)
    (hget : env.getR = none) (hset : env.setInstallR = none)
    (hrl : env.keep.readlineR = .ok s)
    (hs2 : env.keep.set2R = some e2) :
    (wait_timeout h tp d env).2.2.2 = .error e2 ∧
    Op.readline ∈ (wait_timeout h tp d env).2.2.1 := by
  obtain ⟨g, si, ⟨krl, ks2, kt⟩, dt⟩ := env
  simp only at hget hset hrl hs2; subst hget hset hrl hs2
  simp [wait_timeout, wait_inner_keepalive, restore_timeout,
    set_read_timeout, drop_handle]

/-- C10 witness. -/
theorem C10_witness :
    (wait_timeout freshHandle { readTimeout := some 7 } 3
      { getR := none, setInstallR := none,
        keep := { readlineR := .ok "* 1 EXISTS",
                  set2R := some .otherError, term := TermEnv.allOk },
        dropTerm := TermEnv.allOk }).2.2.2 = .error .otherError ∧
    Op.readline ∈
      (wait_timeout freshHandle { readTimeout := some 7 } 3
        { getR := none, setInstallR := none,
          keep := { readlineR := .ok "* 1 EXISTS",
                    set2R := some .otherError, term := TermEnv.allOk },
          dropTerm := TermEnv.allOk }).2.2.1 :=
  C10_restore_failure_shadows_true freshHandle { readTimeout := some 7 } 3
    { getR := none, setInstallR := none,
      keep := { readlineR := .ok "* 1 EXISTS",
                set2R := some .otherError, term := TermEnv.allOk },
      dropTerm := TermEnv.allOk }
    "* 1 EXISTS" .otherError rfl rfl rfl rfl

